import Mathlib

/-!
# Verification of the nation-simulation core (ssss)

Shallow embedding of the simulation core models (`Economy`, `Population`,
`Government`, `DiplomaticRelation` and the diplomatic actions of
`DiplomacySystem`) from `src/game/models/`.  Python floats are modelled as
rationals; every stochastic draw of the source becomes an explicit
parameter of the embedded operation, constrained (where a claim needs it)
by the range of the `random.uniform` call it replaces.
-/

namespace SSSS

/-- `max lo (min hi x)`: the clamping idiom `max(lo, min(hi, x))` of the source. -/
def clamp (lo hi x : ℚ) : ℚ := max lo (min hi x)

/-- `max 0 (min 1 x)`, the share-clamping `max(0, min(1, v))` of `allocate_budget`. -/
def clamp01 (x : ℚ) : ℚ := clamp 0 1 x

/-! ## Economy (src/game/models/economy.py) -/

/-- State of `Economy.__init__`: every mutable field of the Python object. -/
structure Economy where
  gdp : ℚ
  population : ℚ
  tax_rate : ℚ
  government_budget : ℚ
  debt : ℚ
  inflation : ℚ
  unemployment : ℚ
  agriculture : ℚ
  industry : ℚ
  services : ℚ
  interest_rate : ℚ
  trade_balance : ℚ
  healthcare_spending : ℚ
  education_spending : ℚ
  military_spending : ℚ
  infrastructure_spending : ℚ
  welfare_spending : ℚ
  other_spending : ℚ
  deriving DecidableEq, Repr

namespace Economy

/-- `Economy.__init__(initial_gdp, initial_population)`. -/
def init (initial_gdp initial_population : ℚ) : Economy :=
  { gdp := initial_gdp
    population := initial_population
    tax_rate := 15/100          -- BASE_TAX_RATE
    government_budget := initial_gdp * (2/10)
    debt := 0
    inflation := 2/100
    unemployment := 5/100
    agriculture := 15/100
    industry := 35/100
    services := 50/100
    interest_rate := 3/100
    trade_balance := 0
    healthcare_spending := 15/100
    education_spending := 20/100
    military_spending := 10/100
    infrastructure_spending := 20/100
    welfare_spending := 15/100
    other_spending := 20/100 }

/-- `Economy.calculate_tax_revenue`. -/
def calculate_tax_revenue (e : Economy) : ℚ := e.gdp * e.tax_rate

/-- `Economy.update_budget`: revenue = gdp*tax_rate, spending = revenue,
debt reconciliation branches, then `government_budget = revenue`. -/
def update_budget (e : Economy) : Economy :=
  let revenue := e.calculate_tax_revenue
  let spending := revenue
  let e1 :=
    if spending > revenue then
      { e with debt := e.debt + (spending - revenue) }
    else if revenue > spending then
      let debt_payment := min e.debt ((revenue - spending) * (5/10))
      { e with debt := e.debt - debt_payment }
    else e
  { e1 with government_budget := revenue }

/-- Sum of the five named spending shares. -/
def sharesSum (e : Economy) : ℚ :=
  e.healthcare_spending + e.education_spending + e.military_spending +
    e.infrastructure_spending + e.welfare_spending

/-- An optional share argument of `allocate_budget`: `None` keeps the current
field, a provided value is clamped to `[0,1]` (`max(0, min(1, v))`). -/
def resolveShare (o : Option ℚ) (current : ℚ) : ℚ :=
  match o with
  | some v => clamp01 v
  | none => current

/-- The factor by which `allocate_budget` multiplies every share:
`1/total` when the total exceeds 1 (the source's in-place rescale),
1 otherwise (no rescale). -/
def scaleOf (total : ℚ) : ℚ := if 1 < total then 1/total else 1

/-- `Economy.allocate_budget(healthcare, education, military, infrastructure,
welfare)`: omitted arguments (`None` in Python) leave the field unchanged,
provided ones are clamped to `[0,1]`; if the resulting five-share total
exceeds 1 all five are rescaled by `1/total`; `other_spending` is
`max 0 (1 - total)` with `total` the pre-rescale total, as in the source. -/
def allocate_budget (e : Economy)
    (healthcare education military infrastructure welfare : Option ℚ) : Economy :=
  let hc := resolveShare healthcare e.healthcare_spending
  let ed := resolveShare education e.education_spending
  let mi := resolveShare military e.military_spending
  let infra := resolveShare infrastructure e.infrastructure_spending
  let we := resolveShare welfare e.welfare_spending
  let total := hc + ed + mi + infra + we
  let scale := scaleOf total
  { e with
    healthcare_spending := hc * scale
    education_spending := ed * scale
    military_spending := mi * scale
    infrastructure_spending := infra * scale
    welfare_spending := we * scale
    other_spending := max 0 (1 - total) }

/-- The post-clamp requested total of `allocate_budget`, before any rescale. -/
def requestedTotal (e : Economy)
    (healthcare education military infrastructure welfare : Option ℚ) : ℚ :=
  resolveShare healthcare e.healthcare_spending +
    resolveShare education e.education_spending +
    resolveShare military e.military_spending +
    resolveShare infrastructure e.infrastructure_spending +
    resolveShare welfare e.welfare_spending

end Economy

/-! ## Diplomacy (src/game/models/diplomacy.py) -/

/-- Mutable state of a `DiplomaticRelation` (the two country references are
carried separately by `ActionState` below). -/
structure Relation where
  relation_value : ℚ
  trade_deal : Bool
  alliance : Bool
  at_war : Bool
  sanctions : Bool
  deriving DecidableEq, Repr

/-- `DiplomaticRelation.update_relation(change)`: add the change, clamp to
`[-100, 100]`, then auto-break incompatible states (`< -80` clears the
alliance, `< -90` clears the trade deal). -/
def Relation.update_relation (r : Relation) (change : ℚ) : Relation :=
  let v := clamp (-100) 100 (r.relation_value + change)
  { r with
    relation_value := v
    alliance := if v < -80 then false else r.alliance
    trade_deal := if v < -90 then false else r.trade_deal }

/-- The state touched by a diplomatic action between one actor country and
one target country: their shared relation, both economies, and the target
population's happiness (mutated by SANCTIONS). -/
structure ActionState where
  rel : Relation
  actor : Economy
  target : Economy
  targetHappiness : ℚ
  deriving DecidableEq, Repr

/-- The `WAR_DECLARATION` branch of
`DiplomacySystem.perform_diplomatic_action`: rejected when the pair is
allied; otherwise sets `at_war`, clears `alliance` and `trade_deal`,
applies `update_relation(-30)`, and adds 0.05 to both countries'
`military_spending`.  Returns the Python `(success, state)` pair. -/
def war_declaration (s : ActionState) : Bool × ActionState :=
  if s.rel.alliance then (false, s)
  else
    let rel1 : Relation :=
      { s.rel with at_war := true, alliance := false, trade_deal := false }
    (true,
      { s with
        rel := rel1.update_relation (-30)
        actor := { s.actor with
          military_spending := s.actor.military_spending + 5/100 }
        target := { s.target with
          military_spending := s.target.military_spending + 5/100 } })

/-- The `FOREIGN_AID` branch of `perform_diplomatic_action`: requires
`actor.gdp > 2 * target.gdp`; transfers 1% of the actor's GDP to the target
and applies `update_relation(15)`. -/
def foreign_aid (s : ActionState) : Bool × ActionState :=
  if s.actor.gdp > s.target.gdp * 2 then
    let aid_amount := s.actor.gdp * (1/100)
    (true,
      { s with
        actor := { s.actor with gdp := s.actor.gdp - aid_amount }
        target := { s.target with gdp := s.target.gdp + aid_amount }
        rel := s.rel.update_relation 15 })
  else (false, s)

/-- The `SANCTIONS` branch of `perform_diplomatic_action`: requires no
alliance and a negative relation value; sets `sanctions`, clears
`trade_deal`, applies `update_relation(-10)`, multiplies the target's GDP
by 0.98 and subtracts 5 from the target population's happiness — with no
clamping of happiness. -/
def sanctions_action (s : ActionState) : Bool × ActionState :=
  if ¬ s.rel.alliance ∧ s.rel.relation_value < 0 then
    let rel1 : Relation := { s.rel with sanctions := true, trade_deal := false }
    (true,
      { s with
        rel := rel1.update_relation (-10)
        target := { s.target with gdp := s.target.gdp * (98/100) }
        targetHappiness := s.targetHappiness - 5 })
  else (false, s)

/-! ## Population (src/game/models/population.py) -/

/-- `MAX_POPULATION_GROWTH` from `src/game/constants.py`. -/
def MAX_POPULATION_GROWTH : ℚ := 3/100

/-- State of `Population.__init__`. -/
structure Population where
  total : ℚ
  happiness : ℚ
  health : ℚ
  education : ℚ
  growth_rate : ℚ
  children : ℚ
  adults : ℚ
  elderly : ℚ
  literacy_rate : ℚ
  life_expectancy : ℚ
  birth_rate : ℚ
  death_rate : ℚ
  healthcare_satisfaction : ℚ
  education_satisfaction : ℚ
  economic_satisfaction : ℚ
  security_satisfaction : ℚ
  deriving DecidableEq, Repr

namespace Population

/-- `Population.__init__(initial_population)`. -/
def init (initial_population : ℚ) : Population :=
  { total := initial_population
    happiness := 50             -- BASE_HAPPINESS
    health := 70
    education := 60
    growth_rate := 1/100        -- BASE_POPULATION_GROWTH
    children := 25/100
    adults := 65/100
    elderly := 10/100
    literacy_rate := 85/100
    life_expectancy := 75
    birth_rate := 15/1000
    death_rate := 8/1000
    healthcare_satisfaction := 50
    education_satisfaction := 50
    economic_satisfaction := 50
    security_satisfaction := 50 }

/-- `Population.update_population(healthcare_spending, education_spending,
welfare_spending, economic_health, stability)`.  Health and education move
by `(spending*50 − baseline)*0.01` capped at 100; the four satisfaction
indices are derived; happiness is their unweighted mean; the growth rate is
recomputed from the new health and happiness and clamped to
`[0, MAX_POPULATION_GROWTH]`; the total, life expectancy and literacy rate
are updated last.  `welfare_spending` is accepted and unused, as in the
source. -/
def update_population (p : Population)
    (healthcare_spending education_spending welfare_spending
      economic_health stability : ℚ) : Population :=
  let healthcare_effect := healthcare_spending * 50
  let health := min 100 (p.health + (healthcare_effect - 70) * (1/100))
  let healthcare_satisfaction := min 100 (healthcare_spending * 100)
  let education_effect := education_spending * 50
  let education := min 100 (p.education + (education_effect - 60) * (1/100))
  let education_satisfaction := min 100 (education_spending * 100)
  let economic_satisfaction := economic_health
  let security_satisfaction := min 100 (stability * 100)
  let happiness := (healthcare_satisfaction + education_satisfaction +
    economic_satisfaction + security_satisfaction) / 4
  let base_growth := p.birth_rate - p.death_rate
  let health_modifier := (health - 70) / 100
  let happiness_modifier := (happiness - 50) / 200
  let growth_rate := clamp 0 MAX_POPULATION_GROWTH
    (base_growth + health_modifier * (5/1000) + happiness_modifier * (3/1000))
  { p with
    health := health
    education := education
    healthcare_satisfaction := healthcare_satisfaction
    education_satisfaction := education_satisfaction
    economic_satisfaction := economic_satisfaction
    security_satisfaction := security_satisfaction
    happiness := happiness
    growth_rate := growth_rate
    total := p.total * (1 + growth_rate)
    life_expectancy := 70 + (health - 70) * (2/10)
    literacy_rate := min 1 (1/2 + education * (5/1000)) }

end Population

/-! ## Government (src/game/models/government.py, src/game/constants.py) -/

/-- The fixed enumeration of government types of `GOVERNMENT_TYPES`. -/
inductive GovernmentType
  | democracy
  | monarchy
  | dictatorship
  | republic
  deriving DecidableEq, Repr

/-- `GOVERNMENT_TYPES[t]['election_frequency']` (years; 0 means no
elections). -/
def election_frequency : GovernmentType → ℚ
  | .democracy => 4
  | .monarchy => 0
  | .dictatorship => 0
  | .republic => 6

/-- `GOVERNMENT_TYPES[t]['corruption_resistance']`. -/
def corruption_resistance : GovernmentType → ℚ
  | .democracy => 8/10
  | .monarchy => 5/10
  | .dictatorship => 3/10
  | .republic => 7/10

/-- `GOVERNMENT_TYPES[t]['stability_bonus']`. -/
def stability_bonus : GovernmentType → ℚ
  | .democracy => 1/10
  | .monarchy => 2/10
  | .dictatorship => -1/10
  | .republic => 5/100

/-- The six law names of `Government.__init__`'s `laws` dictionary. -/
inductive LawName
  | freedom_of_press
  | universal_healthcare
  | mandatory_education
  | death_penalty
  | gun_control
  | environmental_protection
  deriving DecidableEq, Repr

/-- The four political events handled by `trigger_political_event`. -/
inductive PoliticalEvent
  | corruption_scandal
  | successful_reform
  | coup_attempt
  | protest
  deriving DecidableEq, Repr

/-- State of `Government.__init__`.  The fixed 4-party roster is represented
by its only mutable per-party datum, the popularity vector (party names,
ideologies and policy preferences are fixed at construction and never read
by the modelled operations); the Python `ruling_party` reference into the
roster list is the index `ruling`. -/
structure Government where
  gtype : GovernmentType
  stability : ℚ
  corruption : ℚ
  years_in_power : ℚ
  next_election : ℚ
  popularity : Fin 4 → ℚ
  ruling : Fin 4
  laws : LawName → Bool
  bureaucracy_efficiency : ℚ
  transparency : ℚ

/-- Python's `max(self.parties, key=lambda p: p.popularity)`: the first
roster index attaining the maximum popularity (`max` keeps the earlier
element on ties, replacing only on strict increase). -/
def argmaxParty (p : Fin 4 → ℚ) : Fin 4 :=
  let i1 : Fin 4 := if p 0 < p 1 then 1 else 0
  let i2 : Fin 4 := if p i1 < p 2 then 2 else i1
  if p i2 < p 3 then 3 else i2

/-- The initial popularity vector of the roster: Progressive 0.25,
Conservative 0.25, Centrist 0.30, Nationalist 0.20. -/
def initPopularity : Fin 4 → ℚ := ![1/4, 1/4, 3/10, 1/5]

namespace Government

/-- `Government.__init__(government_type)`. -/
def init (t : GovernmentType) : Government :=
  { gtype := t
    stability := 70
    corruption := 20
    years_in_power := 0
    next_election := election_frequency t
    popularity := initPopularity
    ruling := argmaxParty initPopularity
    laws := fun n =>
      match n with
      | .freedom_of_press => true
      | .universal_healthcare => false
      | .mandatory_education => true
      | .death_penalty => false
      | .gun_control => true
      | .environmental_protection => true
    bureaucracy_efficiency := 60
    transparency := 50 }

/-- `Government.update_party_popularity(approval, economic_health)`: the
ruling party's popularity shifts by `(mean(approval, economic_health) −
50) * 0.002`; when that shift is negative every other party gains its
absolute value divided by the roster size 4; then the vector is divided by
its total when the total is positive. -/
def update_party_popularity (g : Government)
    (approval economic_health : ℚ) : Government :=
  let performance_change := ((approval + economic_health) / 2 - 50) * (2/1000)
  let pop1 : Fin 4 → ℚ := fun i =>
    if i = g.ruling then g.popularity i + performance_change
    else if performance_change < 0 then
      g.popularity i + |performance_change| / 4
    else g.popularity i
  let total := pop1 0 + pop1 1 + pop1 2 + pop1 3
  let pop2 : Fin 4 → ℚ := fun i =>
    if 0 < total then pop1 i / total else pop1 i
  { g with popularity := pop2 }

/-- `Government.hold_election()`, with the per-party uniform noise draws as
an explicit vector.  After the noise each popularity becomes
`max 0 (popularity / total)`; the winner (first index of maximum
popularity) becomes ruling; a change of ruling party resets
`years_in_power` and costs 5 stability; the election countdown resets to
the type's frequency.  (The source divides by `total` unconditionally:
`total = 0` raises in Python, while here division by zero yields zero.) -/
def hold_election (g : Government) (noise : Fin 4 → ℚ) : Government :=
  if election_frequency g.gtype = 0 then g
  else
    let pop1 : Fin 4 → ℚ := fun i => g.popularity i + noise i
    let total := pop1 0 + pop1 1 + pop1 2 + pop1 3
    let pop2 : Fin 4 → ℚ := fun i => max 0 (pop1 i / total)
    let winner := argmaxParty pop2
    let g1 := { g with popularity := pop2 }
    let g2 :=
      if winner ≠ g.ruling then
        { g1 with ruling := winner, years_in_power := 0,
                  stability := g1.stability - 5 }
      else g1
    { g2 with next_election := election_frequency g.gtype }

/-- The body of `Government.update_government(population_approval,
economic_health)` up to (and not including) the final election check, with
the `random.uniform(-0.5, 1.0)` corruption draw explicit.  Stability takes
the damped approval term plus the type's bonus minus a corruption drag and
is clamped to `[0,100]`; corruption random-walks scaled by
`1 − corruption_resistance` and is clamped to `[0,100]`; party
popularities are then updated. -/
def update_government_core (g : Government)
    (population_approval economic_health corruption_draw : ℚ) : Government :=
  let g0 := { g with years_in_power := g.years_in_power + 1/12 }
  let approval_effect := (population_approval - 50) * (2/10)
  let stability1 := g0.stability + approval_effect * (1/10)
  let stability2 := stability1 + stability_bonus g.gtype
  let corruption_change := corruption_draw * (1 - corruption_resistance g.gtype)
  let corruption2 := clamp 0 100 (g.corruption + corruption_change)
  let stability3 := stability2 - corruption2 * (1/10)
  let stability4 := clamp 0 100 stability3
  update_party_popularity
    { g0 with stability := stability4, corruption := corruption2 }
    population_approval economic_health

/-- `Government.update_government`: the core update followed by the election
check `if self.next_election <= 0 and election_frequency > 0:
self.hold_election()`. -/
def update_government (g : Government)
    (population_approval economic_health corruption_draw : ℚ)
    (election_noise : Fin 4 → ℚ) : Government :=
  if (update_government_core g population_approval economic_health
        corruption_draw).next_election ≤ 0 ∧
      0 < election_frequency (update_government_core g population_approval
        economic_health corruption_draw).gtype then
    hold_election (update_government_core g population_approval
      economic_health corruption_draw) election_noise
  else
    update_government_core g population_approval economic_health
      corruption_draw

/-- `Government.change_government_type(new_type)`, with the
`random.uniform(10, 30)` stability penalty explicit.  The membership test
`new_type in GOVERNMENT_TYPES` always holds for the enumeration. -/
def change_government_type (g : Government) (new_type : GovernmentType)
    (penalty : ℚ) : Government :=
  let g1 := { g with
    gtype := new_type
    years_in_power := 0
    next_election := election_frequency new_type }
  if g.gtype ≠ new_type then
    { g1 with stability := max 0 (g1.stability - penalty) }
  else g1

/-- `Government.pass_law(law_name, value)`, with the `random.uniform(-2, 2)`
stability delta explicit.  The law is always known (enumeration); when the
value changes the unclamped stability delta applies. -/
def pass_law (g : Government) (name : LawName) (value : Bool)
    (draw : ℚ) : Government :=
  let old := g.laws name
  let g1 := { g with laws := fun n => if n = name then value else g.laws n }
  if old ≠ value then { g1 with stability := g1.stability + draw } else g1

/-- `Government.trigger_political_event(event_type)`, with the event's
uniform draws (`d1`, `d2`, `d3`) and the coup success roll explicit.  All
stability/corruption deltas here are unclamped except the coup branch's
`max 0` inside `change_government_type`. -/
def trigger_political_event (g : Government) (ev : PoliticalEvent)
    (d1 d2 d3 : ℚ) (coup_success : Bool) : Government :=
  match ev with
  | .corruption_scandal =>
      { g with corruption := g.corruption + d1
               stability := g.stability - d2
               popularity := fun i =>
                 if i = g.ruling then g.popularity i * (9/10)
                 else g.popularity i }
  | .successful_reform =>
      { g with corruption := g.corruption - d1
               stability := g.stability + d2
               bureaucracy_efficiency := g.bureaucracy_efficiency + d3 }
  | .coup_attempt =>
      if g.stability < 30 then
        if coup_success then
          { (change_government_type g .dictatorship d3) with stability := 20 }
        else { g with stability := g.stability - 15 }
      else { g with stability := g.stability - 5 }
  | .protest => { g with stability := g.stability - d1 }

end Government

/-- The invariant driving the election machinery: the countdown always
equals the current type's election frequency, because no code path ever
decrements `next_election`. -/
def electionInv (g : Government) : Prop :=
  g.next_election = election_frequency g.gtype

/-- The ruling party holds the (weakly) highest popularity of the 4-party
roster. -/
def isMaxPop (g : Government) : Prop :=
  g.popularity 0 ≤ g.popularity g.ruling ∧
  g.popularity 1 ≤ g.popularity g.ruling ∧
  g.popularity 2 ≤ g.popularity g.ruling ∧
  g.popularity 3 ≤ g.popularity g.ruling

/-- The per-country fields touched by the per-tick war attrition of
`DiplomacySystem.resolve_wars` for the two sides of one active war. -/
structure WarSides where
  gdp1 : ℚ
  happiness1 : ℚ
  stability1 : ℚ
  gdp2 : ℚ
  happiness2 : ℚ
  stability2 : ℚ
  deriving DecidableEq, Repr

/-- The continuous war damage applied by `resolve_wars` to both sides of an
active war every tick (before the 1% end-of-war roll): GDP ×0.999,
happiness −0.1 and stability −0.1, with no clamping. -/
def war_attrition (w : WarSides) : WarSides :=
  { gdp1 := w.gdp1 * (999/1000)
    happiness1 := w.happiness1 - 1/10
    stability1 := w.stability1 - 1/10
    gdp2 := w.gdp2 * (999/1000)
    happiness2 := w.happiness2 - 1/10
    stability2 := w.stability2 - 1/10 }

end SSSS

namespace SSSS

/-! ## Theorems about `Economy.update_budget` (claim C9) -/

/-- C9: `update_budget` computes revenue = gdp × tax_rate and assigns it to
`government_budget`; since spending is set equal to revenue, both debt
branches are dead and every call leaves every field other than
`government_budget` unchanged (in particular `debt` is unchanged). -/
theorem update_budget_frame (e : Economy) :
    e.update_budget = { e with government_budget := e.gdp * e.tax_rate } := by
  simp [Economy.update_budget, Economy.calculate_tax_revenue]

/-! ## Theorems about `Economy.allocate_budget` (claim C5) -/

lemma resolveShare_nonneg (o : Option ℚ) (x : ℚ) (hx : 0 ≤ x) :
    0 ≤ Economy.resolveShare o x := by
  cases o with
  | some v => exact le_max_left _ _
  | none => exact hx

lemma share_scaled_mem (x t : ℚ) (hx : 0 ≤ x) (hxt : x ≤ t) :
    0 ≤ x * Economy.scaleOf t ∧ x * Economy.scaleOf t ≤ 1 := by
  unfold Economy.scaleOf
  split_ifs with h
  · refine ⟨mul_nonneg hx (by positivity), ?_⟩
    rw [mul_one_div, div_le_one (by linarith)]
    exact hxt
  · push_neg at h
    simpa using ⟨hx, hxt.trans h⟩

lemma total_scaled (t : ℚ) :
    t * Economy.scaleOf t ≤ 1 ∧ (1 < t → t * Economy.scaleOf t = 1) := by
  unfold Economy.scaleOf
  split_ifs with h
  · rw [mul_one_div, div_self (by linarith)]
    exact ⟨le_refl 1, fun _ => rfl⟩
  · push_neg at h
    simpa using ⟨h, fun hc => absurd hc (not_lt.mpr h)⟩

/-- C5: for every economy whose five current shares are nonnegative and every
combination of (possibly omitted) share arguments, after `allocate_budget`
each of the five shares lies in `[0,1]`, their sum is at most 1, the sum is
exactly 1 whenever the post-clamp requested total exceeds 1 (proportional
rescale), and `other_spending` receives `max 0 (1 - total)`. -/
theorem allocate_budget_shares_ok (e : Economy)
    (oh oe om oi ow : Option ℚ)
    (h1 : 0 ≤ e.healthcare_spending) (h2 : 0 ≤ e.education_spending)
    (h3 : 0 ≤ e.military_spending) (h4 : 0 ≤ e.infrastructure_spending)
    (h5 : 0 ≤ e.welfare_spending) :
    (0 ≤ (e.allocate_budget oh oe om oi ow).healthcare_spending ∧
      (e.allocate_budget oh oe om oi ow).healthcare_spending ≤ 1) ∧
    (0 ≤ (e.allocate_budget oh oe om oi ow).education_spending ∧
      (e.allocate_budget oh oe om oi ow).education_spending ≤ 1) ∧
    (0 ≤ (e.allocate_budget oh oe om oi ow).military_spending ∧
      (e.allocate_budget oh oe om oi ow).military_spending ≤ 1) ∧
    (0 ≤ (e.allocate_budget oh oe om oi ow).infrastructure_spending ∧
      (e.allocate_budget oh oe om oi ow).infrastructure_spending ≤ 1) ∧
    (0 ≤ (e.allocate_budget oh oe om oi ow).welfare_spending ∧
      (e.allocate_budget oh oe om oi ow).welfare_spending ≤ 1) ∧
    (e.allocate_budget oh oe om oi ow).sharesSum ≤ 1 ∧
    (1 < e.requestedTotal oh oe om oi ow →
      (e.allocate_budget oh oe om oi ow).sharesSum = 1) ∧
    (e.allocate_budget oh oe om oi ow).other_spending =
      max 0 (1 - e.requestedTotal oh oe om oi ow) := by
  have ha := resolveShare_nonneg oh _ h1
  have hb := resolveShare_nonneg oe _ h2
  have hc := resolveShare_nonneg om _ h3
  have hd := resolveShare_nonneg oi _ h4
  have hf := resolveShare_nonneg ow _ h5
  set a := Economy.resolveShare oh e.healthcare_spending
  set b := Economy.resolveShare oe e.education_spending
  set c := Economy.resolveShare om e.military_spending
  set d := Economy.resolveShare oi e.infrastructure_spending
  set f := Economy.resolveShare ow e.welfare_spending
  have hsum : (a + b + c + d + f) * Economy.scaleOf (a + b + c + d + f) =
      a * Economy.scaleOf (a + b + c + d + f) +
      b * Economy.scaleOf (a + b + c + d + f) +
      c * Economy.scaleOf (a + b + c + d + f) +
      d * Economy.scaleOf (a + b + c + d + f) +
      f * Economy.scaleOf (a + b + c + d + f) := by ring
  simp only [Economy.allocate_budget, Economy.sharesSum, Economy.requestedTotal]
  refine ⟨share_scaled_mem a _ ha (by linarith),
          share_scaled_mem b _ hb (by linarith),
          share_scaled_mem c _ hc (by linarith),
          share_scaled_mem d _ hd (by linarith),
          share_scaled_mem f _ hf (by linarith), ?_, ?_, by trivial⟩
  · rw [← hsum]
    exact (total_scaled _).1
  · intro hgt
    rw [← hsum]
    exact (total_scaled _).2 hgt

/-- Witness for C5 at the freshly constructed economy with all five
arguments omitted. -/
theorem allocate_budget_shares_ok_witness :
    ((Economy.init 100000 1000000).allocate_budget
        none none none none none).sharesSum ≤ 1 :=
  (allocate_budget_shares_ok (Economy.init 100000 1000000)
      none none none none none
      (by norm_num [Economy.init]) (by norm_num [Economy.init])
      (by norm_num [Economy.init]) (by norm_num [Economy.init])
      (by norm_num [Economy.init])).2.2.2.2.2.1

/-! ## Theorems about `WAR_DECLARATION` (claim C2) -/

/-- C2: `WAR_DECLARATION` on an allied pair fails and changes no state; on a
non-allied pair it succeeds, sets `at_war`, clears `alliance` and
`trade_deal`, decreases `relation_value` by exactly 30 before clamping to
`[-100,100]`, and adds 0.05 to both countries' `military_spending`. -/
theorem war_declaration_spec (s : ActionState) :
    (s.rel.alliance = true → war_declaration s = (false, s)) ∧
    (s.rel.alliance = false →
      (war_declaration s).1 = true ∧
      (war_declaration s).2.rel.at_war = true ∧
      (war_declaration s).2.rel.alliance = false ∧
      (war_declaration s).2.rel.trade_deal = false ∧
      (war_declaration s).2.rel.relation_value =
        clamp (-100) 100 (s.rel.relation_value - 30) ∧
      (war_declaration s).2.actor.military_spending =
        s.actor.military_spending + 5/100 ∧
      (war_declaration s).2.target.military_spending =
        s.target.military_spending + 5/100) := by
  constructor
  · intro h
    simp [war_declaration, h]
  · intro h
    simp [war_declaration, h, Relation.update_relation, clamp,
      sub_eq_add_neg]

/-- Witness for C2: an allied pair (failure, no change) and a non-allied
pair (success). -/
theorem war_declaration_spec_witness :
    war_declaration ⟨⟨0, false, true, false, false⟩,
        Economy.init 100000 1000000, Economy.init 100000 1000000, 50⟩ =
      (false, ⟨⟨0, false, true, false, false⟩,
        Economy.init 100000 1000000, Economy.init 100000 1000000, 50⟩) ∧
    (war_declaration ⟨⟨0, false, false, false, false⟩,
        Economy.init 100000 1000000, Economy.init 100000 1000000, 50⟩).1 =
      true :=
  ⟨(war_declaration_spec _).1 rfl, ((war_declaration_spec _).2 rfl).1⟩

/-! ## Theorems about `update_relation` auto-break (claim C4) -/

/-- C4 counterexample: from `relation_value = -85` with `alliance = true`, the
call `update_relation 10` leaves the alliance intact (the new value −75 is
not below −80), refuting "any delta auto-clears alliance". -/
theorem update_relation_delta10_keeps_alliance :
    (Relation.update_relation ⟨-85, false, true, false, false⟩ 10).alliance =
        true ∧
      (Relation.update_relation ⟨-85, false, true, false, false⟩
          10).relation_value = -75 := by
  norm_num [Relation.update_relation, clamp]

/-- C4 amended: from `relation_value = -85` with `alliance = true`, the next
`update_relation` call clears the alliance exactly when its delta is below
5 (i.e. exactly when the post-update value stays below −80). -/
theorem update_relation_alliance_clear_iff (r : Relation) (d : ℚ)
    (hv : r.relation_value = -85) (ha : r.alliance = true) :
    (r.update_relation d).alliance = false ↔ d < 5 := by
  simp only [Relation.update_relation, hv, ha, clamp]
  split_ifs with h
  · simp only [iff_true_intro rfl, true_iff]
    rw [max_lt_iff, min_lt_iff] at h
    rcases h.2 with h2 | h2 <;> linarith
  · refine iff_of_false (by simp) ?_
    intro hd
    apply h
    rw [max_lt_iff, min_lt_iff]
    exact ⟨by norm_num, Or.inr (by linarith)⟩

/-- Witness for the amended C4 at delta −1 (clears) and the iff itself. -/
theorem update_relation_alliance_clear_iff_witness :
    ((Relation.update_relation ⟨-85, false, true, false, false⟩
        (-1)).alliance = false ↔ (-1 : ℚ) < 5) :=
  update_relation_alliance_clear_iff ⟨-85, false, true, false, false⟩ (-1)
    rfl rfl

/-! ## Theorems about `FOREIGN_AID` (claim C10) -/

/-- C10: `FOREIGN_AID` succeeds exactly when the actor's GDP exceeds twice
the target's; on success it transfers exactly 1% of the actor's GDP and
adds 15 to `relation_value` (pre-clamp); on failure nothing changes. -/
theorem foreign_aid_spec (s : ActionState) :
    (¬ s.actor.gdp > s.target.gdp * 2 → foreign_aid s = (false, s)) ∧
    (s.actor.gdp > s.target.gdp * 2 →
      (foreign_aid s).1 = true ∧
      (foreign_aid s).2.actor.gdp = s.actor.gdp - s.actor.gdp * (1/100) ∧
      (foreign_aid s).2.target.gdp = s.target.gdp + s.actor.gdp * (1/100) ∧
      (foreign_aid s).2.rel.relation_value =
        clamp (-100) 100 (s.rel.relation_value + 15)) := by
  constructor
  · intro h
    simp [foreign_aid, h]
  · intro h
    simp [foreign_aid, h, Relation.update_relation]

/-- Witness for C10: the spec scenario (actor GDP 1,000,000, target GDP
400,000) succeeds with GDPs 990,000/410,000 and relation +15, and a pair of
equal GDPs fails with no state change. -/
theorem foreign_aid_spec_witness :
    ((foreign_aid ⟨⟨0, false, false, false, false⟩,
        Economy.init 1000000 1000000, Economy.init 400000 1000000, 50⟩).1 =
      true ∧
    (foreign_aid ⟨⟨0, false, false, false, false⟩,
        Economy.init 1000000 1000000, Economy.init 400000 1000000,
        50⟩).2.actor.gdp = 990000 ∧
    (foreign_aid ⟨⟨0, false, false, false, false⟩,
        Economy.init 1000000 1000000, Economy.init 400000 1000000,
        50⟩).2.target.gdp = 410000 ∧
    (foreign_aid ⟨⟨0, false, false, false, false⟩,
        Economy.init 1000000 1000000, Economy.init 400000 1000000,
        50⟩).2.rel.relation_value = 15) ∧
    foreign_aid ⟨⟨0, false, false, false, false⟩,
        Economy.init 500000 1000000, Economy.init 500000 1000000, 50⟩ =
      (false, ⟨⟨0, false, false, false, false⟩,
        Economy.init 500000 1000000, Economy.init 500000 1000000, 50⟩) := by
  constructor
  · have h := (foreign_aid_spec ⟨⟨0, false, false, false, false⟩,
      Economy.init 1000000 1000000, Economy.init 400000 1000000, 50⟩).2
      (by norm_num [Economy.init])
    refine ⟨h.1, ?_, ?_, ?_⟩
    · rw [h.2.1]; norm_num [Economy.init]
    · rw [h.2.2.1]; norm_num [Economy.init]
    · rw [h.2.2.2]; norm_num [clamp]
  · exact (foreign_aid_spec _).1 (by norm_num [Economy.init])

/-! ## Theorems about `Population.update_population` (claim C3) -/

/-- C3 counterexample: at the maximum spending level 1.0 for both healthcare
and education, `update_population` still strictly lowers both health and
education from the freshly constructed population (the per-tick delta
`(spending*50 − 70)*0.01`, resp. `(spending*50 − 60)*0.01`, is negative
even at spending 1), refuting "sufficiently high spending maintains or
raises health and education". -/
theorem update_population_max_spending_still_drops :
    ((Population.init 1000000).update_population 1 1 (15/100) 50
        (7/10)).health < (Population.init 1000000).health ∧
    ((Population.init 1000000).update_population 1 1 (15/100) 50
        (7/10)).education < (Population.init 1000000).education := by
  norm_num [Population.update_population, Population.init, clamp]

/-- C3 amended: `update_population` changes health by
`(healthcare_spending*50 − 70)*0.01` and education by
`(education_spending*50 − 60)*0.01` before capping at 100; the resulting
values are monotone in the corresponding spending (higher spending gives a
higher value), both are at most 100, but for every spending level at most 1
the deltas are negative, so health and education strictly decrease every
call. -/
theorem update_population_health_education_drift (p : Population)
    (hc ed w eh st hc2 ed2 w2 eh2 st2 : ℚ) :
    ((p.update_population hc ed w eh st).health ≤ 100 ∧
      (p.update_population hc ed w eh st).education ≤ 100) ∧
    (hc ≤ 1 → (p.update_population hc ed w eh st).health < p.health) ∧
    (ed ≤ 1 → (p.update_population hc ed w eh st).education < p.education) ∧
    (hc ≤ hc2 → (p.update_population hc ed w eh st).health ≤
      (p.update_population hc2 ed2 w2 eh2 st2).health) ∧
    (ed ≤ ed2 → (p.update_population hc ed w eh st).education ≤
      (p.update_population hc2 ed2 w2 eh2 st2).education) := by
  simp only [Population.update_population]
  refine ⟨⟨min_le_left _ _, min_le_left _ _⟩, ?_, ?_, ?_, ?_⟩
  · intro h
    have := min_le_right (100 : ℚ) (p.health + (hc * 50 - 70) * (1/100))
    linarith
  · intro h
    have := min_le_right (100 : ℚ) (p.education + (ed * 50 - 60) * (1/100))
    linarith
  · intro h
    exact min_le_min (le_refl _) (by linarith)
  · intro h
    exact min_le_min (le_refl _) (by linarith)

/-- Witness for the amended C3 at the freshly constructed population with
both spending levels at their maximum 1.0. -/
theorem update_population_health_education_drift_witness :
    ((Population.init 1000000).update_population 1 1 (15/100) 50
        (7/10)).health < (Population.init 1000000).health ∧
    ((Population.init 1000000).update_population 1 1 (15/100) 50
        (7/10)).health ≤ 100 :=
  ⟨(update_population_health_education_drift (Population.init 1000000)
      1 1 (15/100) 50 (7/10) 1 1 (15/100) 50 (7/10)).2.1 (by norm_num),
    (update_population_health_education_drift (Population.init 1000000)
      1 1 (15/100) 50 (7/10) 1 1 (15/100) 50 (7/10)).1.1⟩

/-! ## Helper lemmas for the government theorems -/

lemma fin4_eq_02 : ((0 : Fin 4) = 2) = False := by simp
lemma fin4_eq_12 : ((1 : Fin 4) = 2) = False := by simp
lemma fin4_eq_22 : ((2 : Fin 4) = 2) = True := by simp
lemma fin4_eq_32 : ((3 : Fin 4) = 2) = False := by simp

lemma clamp_mem (x : ℚ) : 0 ≤ clamp 0 100 x ∧ clamp 0 100 x ≤ 100 :=
  ⟨le_max_left _ _, max_le (by norm_num) (min_le_left _ _)⟩

lemma le_argmax (p : Fin 4 → ℚ) :
    p 0 ≤ p (argmaxParty p) ∧ p 1 ≤ p (argmaxParty p) ∧
    p 2 ≤ p (argmaxParty p) ∧ p 3 ≤ p (argmaxParty p) := by
  simp only [argmaxParty]
  split_ifs <;> refine ⟨?_, ?_, ?_, ?_⟩ <;> linarith

lemma update_government_core_next_election (g : Government) (a e d : ℚ) :
    (g.update_government_core a e d).next_election = g.next_election := rfl

lemma update_government_core_gtype (g : Government) (a e d : ℚ) :
    (g.update_government_core a e d).gtype = g.gtype := rfl

/-- Under the election invariant the election branch of `update_government`
never fires: either the frequency is positive and then the countdown equals
it and is positive, or the frequency is zero and the branch's second
conjunct fails. -/
lemma update_government_eq_core (g : Government) (a e d : ℚ)
    (n : Fin 4 → ℚ) (hg : electionInv g) :
    g.update_government a e d n = g.update_government_core a e d := by
  unfold Government.update_government
  rw [if_neg]
  rintro ⟨hle, hpos⟩
  rw [update_government_core_next_election, hg] at hle
  rw [update_government_core_gtype] at hpos
  exact absurd hpos (not_lt.mpr hle)

/-! ## Theorems about the election countdown (claim C7) -/

/-- C7: `next_election` is never decremented anywhere in the code base; it
always equals the current type's `election_frequency` (established at
construction and re-established by every operation that writes it), hence
the state `next_election ≤ 0` with a positive frequency is unreachable,
`update_government` never reaches its `hold_election` call, and elections
never occur in any run. -/
theorem next_election_constant_no_elections
    (t : GovernmentType) (g : Government) (a e d pen draw d1 d2 d3 : ℚ)
    (n : Fin 4 → ℚ) (nt : GovernmentType) (ln : LawName) (v coup : Bool)
    (ev : PoliticalEvent) (hg : electionInv g) :
    electionInv (Government.init t) ∧
    electionInv (g.update_government a e d n) ∧
    electionInv (g.change_government_type nt pen) ∧
    electionInv (g.pass_law ln v draw) ∧
    electionInv (g.trigger_political_event ev d1 d2 d3 coup) ∧
    (0 < election_frequency g.gtype → 0 < g.next_election) ∧
    g.update_government a e d n = g.update_government_core a e d := by
  refine ⟨rfl, ?_, ?_, ?_, ?_, ?_, update_government_eq_core g a e d n hg⟩
  · rw [update_government_eq_core g a e d n hg]
    exact hg
  · unfold Government.change_government_type
    split_ifs <;> rfl
  · simp only [Government.pass_law]
    unfold electionInv at hg ⊢
    split_ifs <;> exact hg
  · unfold electionInv at hg ⊢
    cases ev
    · exact hg
    · exact hg
    · simp only [Government.trigger_political_event,
        Government.change_government_type]
      split_ifs <;> first | exact hg | rfl
    · exact hg
  · intro h
    rw [hg]
    exact h

/-- Witness for C7 at a freshly constructed democracy. -/
theorem next_election_constant_no_elections_witness :
    (Government.init .democracy).update_government 50 50 0 (fun _ => 0) =
      (Government.init .democracy).update_government_core 50 50 0 :=
  (next_election_constant_no_elections .democracy
      (Government.init .democracy) 50 50 0 0 0 0 0 0 (fun _ => 0)
      .republic .freedom_of_press true true .protest rfl).2.2.2.2.2.2

/-! ## Theorems about the ruling party (claim C6) -/

/-- C6 counterexample: from the freshly constructed government (ruling party:
the Centrist index 2 at popularity 0.30), one `update_party_popularity`
call with approval 0 and economic health 0 leaves the ruling party with
strictly lower popularity than the Progressive party at index 0 — so "the
ruling party has the highest popularity" is not preserved between
elections. -/
theorem update_party_popularity_breaks_max :
    ((Government.init .democracy).update_party_popularity 0 0).popularity
        (((Government.init .democracy).update_party_popularity 0 0).ruling) <
      ((Government.init .democracy).update_party_popularity 0 0).popularity
        0 := by
  norm_num [Government.init, Government.update_party_popularity, argmaxParty,
    initPopularity, abs, fin4_eq_02, fin4_eq_12, fin4_eq_22, fin4_eq_32]

/-- C6 amended: the ruling party is always one of the four roster parties
(its index is never moved off the roster: `update_party_popularity` and
`trigger_political_event` keep it unchanged), and it is the
highest-popularity party at construction and immediately after every
`hold_election`; but between elections `update_party_popularity` can leave
it with lower popularity than another party. -/
theorem ruling_roster_member_max_at_elections
    (g : Government) (noise : Fin 4 → ℚ) (a e d1 d2 d3 : ℚ)
    (ev : PoliticalEvent) (coup : Bool) (t : GovernmentType)
    (hf : election_frequency g.gtype ≠ 0) :
    isMaxPop (Government.init t) ∧
    isMaxPop (g.hold_election noise) ∧
    (g.update_party_popularity a e).ruling = g.ruling ∧
    (g.trigger_political_event ev d1 d2 d3 coup).ruling = g.ruling := by
  refine ⟨le_argmax initPopularity, ?_, rfl, ?_⟩
  · simp only [Government.hold_election, if_neg hf, isMaxPop]
    split_ifs with h
    · exact le_argmax _
    · rw [not_not] at h
      rw [← h]
      exact le_argmax _
  · cases ev
    · rfl
    · rfl
    · simp only [Government.trigger_political_event,
        Government.change_government_type]
      split_ifs <;> rfl
    · rfl

/-- Witness for the amended C6: the freshly constructed democracy holds an
election (frequency 4 ≠ 0) with zero noise; afterwards the ruling party is
the popularity maximum. -/
theorem ruling_roster_member_max_at_elections_witness :
    isMaxPop ((Government.init .democracy).hold_election (fun _ => 0)) :=
  (ruling_roster_member_max_at_elections (Government.init .democracy)
      (fun _ => 0) 0 0 0 0 0 .protest true .democracy
      (by norm_num [Government.init, election_frequency])).2.1

/-! ## Theorems about the [0,100] bounds of happiness, stability and
corruption (claim C1) -/

/-- C1 counterexample: the per-event deltas are not clamped.  From a state
with happiness 3 ∈ [0,100], a successful SANCTIONS action leaves happiness
−2 < 0; from stability 0 ∈ [0,100], one tick of war attrition in
`resolve_wars` leaves stability −0.1 < 0; from stability 100 ∈ [0,100], a
`pass_law` that changes a law with the maximal draw +2 leaves stability
102 > 100. -/
theorem unclamped_event_deltas_leave_range :
    ((0:ℚ) ≤ 3 ∧ (3:ℚ) ≤ 100 ∧
      (sanctions_action ⟨⟨-10, false, false, false, false⟩,
          Economy.init 100000 1000000, Economy.init 100000 1000000,
          3⟩).2.targetHappiness < 0) ∧
    ((0:ℚ) ≤ 0 ∧ (0:ℚ) ≤ 100 ∧
      (war_attrition ⟨100000, 50, 0, 100000, 50, 0⟩).stability1 < 0) ∧
    (({ Government.init .democracy with
          stability := 100 } : Government).pass_law
        .death_penalty true 2).stability > 100 := by
  refine ⟨⟨by norm_num, by norm_num, ?_⟩, ⟨by norm_num, by norm_num, ?_⟩, ?_⟩
  · norm_num [sanctions_action, Relation.update_relation, clamp, Economy.init]
  · norm_num [war_attrition]
  · norm_num [Government.pass_law, Government.init]

/-- C1 amended: stability and corruption are hard-clamped to `[0,100]` by
`update_government` (for any inputs and any corruption draw, under the
election-countdown invariant), and `update_population` yields a happiness
in `[0,100]` only when its inputs are in range (nonnegative spending and
stability, economic health in `[0,100]`); but SANCTIONS, `pass_law`,
`trigger_political_event` and the war attrition of `resolve_wars` apply
unclamped deltas, so the three metrics can leave `[0,100]`, and a
stability left negative by them is read by the next tick's
`update_population` (as `stability/100`), which then itself produces a
happiness below 0 (final conjunct: stability input −0.06 with zero
spending and economic health gives happiness −1.5) — so happiness is not
restored to `[0,100]` until stability is. -/
theorem tick_updates_clamp_metrics (p : Population) (g : Government)
    (hc ed w eh st a e d : ℚ) (n : Fin 4 → ℚ)
    (hhc : 0 ≤ hc) (hed : 0 ≤ ed) (heh0 : 0 ≤ eh) (heh1 : eh ≤ 100)
    (hst : 0 ≤ st) (hg : electionInv g) :
    (0 ≤ (p.update_population hc ed w eh st).happiness ∧
      (p.update_population hc ed w eh st).happiness ≤ 100) ∧
    (0 ≤ (g.update_government a e d n).stability ∧
      (g.update_government a e d n).stability ≤ 100) ∧
    (0 ≤ (g.update_government a e d n).corruption ∧
      (g.update_government a e d n).corruption ≤ 100) ∧
    ((Population.init 1000000).update_population 0 0 0 0
        (-6/100)).happiness = -3/2 := by
  have hs1 : 0 ≤ min (100:ℚ) (hc * 100) := le_min (by norm_num) (by positivity)
  have hs1b := min_le_left (100:ℚ) (hc * 100)
  have hs2 : 0 ≤ min (100:ℚ) (ed * 100) := le_min (by norm_num) (by positivity)
  have hs2b := min_le_left (100:ℚ) (ed * 100)
  have hs4 : 0 ≤ min (100:ℚ) (st * 100) := le_min (by norm_num) (by positivity)
  have hs4b := min_le_left (100:ℚ) (st * 100)
  refine ⟨?_, ?_, ?_, ?_⟩
  · simp only [Population.update_population]
    constructor <;> linarith
  · rw [update_government_eq_core g a e d n hg]
    exact ⟨(clamp_mem _).1, (clamp_mem _).2⟩
  · rw [update_government_eq_core g a e d n hg]
    exact ⟨(clamp_mem _).1, (clamp_mem _).2⟩
  · norm_num [Population.update_population, Population.init]

/-- Witness for the amended C1 at a freshly constructed republic and
population with in-range inputs, plus the negative-stability happiness
value. -/
theorem tick_updates_clamp_metrics_witness :
    0 ≤ ((Population.init 1000000).update_population (15/100) (2/10)
        (15/100) 50 (7/10)).happiness ∧
    0 ≤ ((Government.init .republic).update_government 50 50 0
        (fun _ => 0)).stability ∧
    ((Government.init .republic).update_government 50 50 0
        (fun _ => 0)).corruption ≤ 100 ∧
    ((Population.init 1000000).update_population 0 0 0 0
        (-6/100)).happiness = -3/2 := by
  have h := tick_updates_clamp_metrics (Population.init 1000000)
    (Government.init .republic) (15/100) (2/10) (15/100) 50 (7/10)
    50 50 0 (fun _ => 0) (by norm_num) (by norm_num) (by norm_num)
    (by norm_num) (by norm_num) rfl
  exact ⟨h.1.1, h.2.1.1, h.2.2.1.2, h.2.2.2⟩

/-! ## Theorems about the spending-share invariant (claim C8) -/

/-- C8 counterexample: the share invariant is not preserved by
`perform_diplomatic_action`.  Starting from two freshly constructed
economies (share sum 0.80 ≤ 1) with a non-allied relation, five successful
WAR_DECLARATIONs drive the actor's five-share sum to 1.05 > 1 (nothing
rescales the 0.05 increments). -/
theorem war_declarations_break_share_sum :
    (Economy.init 100000 1000000).sharesSum ≤ 1 ∧
    1 < (((fun s => (war_declaration s).2)^[5])
        ⟨⟨0, false, false, false, false⟩, Economy.init 100000 1000000,
          Economy.init 100000 1000000, 50⟩).actor.sharesSum := by
  constructor
  · norm_num [Economy.init, Economy.sharesSum]
  · norm_num [Function.iterate_succ, Function.iterate_zero, Function.comp,
      war_declaration, Relation.update_relation, clamp, Economy.init,
      Economy.sharesSum]

/-- C8 amended: each of the five shares lies in `[0,1]` with sum at most 1
after `allocate_budget`, but the invariant is not preserved by
`perform_diplomatic_action`: every successful WAR_DECLARATION adds exactly
0.05 to both countries' `military_spending` and hence to their five-share
sums, with no renormalization, so repeated declarations push the sum above
1. -/
theorem war_declaration_adds_five_percent (s : ActionState)
    (h : s.rel.alliance = false) :
    (war_declaration s).2.actor.sharesSum = s.actor.sharesSum + 5/100 ∧
    (war_declaration s).2.actor.military_spending =
      s.actor.military_spending + 5/100 ∧
    (war_declaration s).2.target.sharesSum = s.target.sharesSum + 5/100 ∧
    (war_declaration s).2.target.military_spending =
      s.target.military_spending + 5/100 := by
  simp only [war_declaration, h, Bool.false_eq_true, if_false,
    Economy.sharesSum]
  refine ⟨by ring, by trivial, by ring, by trivial⟩

/-- Witness for the amended C8 at the initial two-country pair: one
declaration moves the actor's share sum from 0.80 to 0.85. -/
theorem war_declaration_adds_five_percent_witness :
    (war_declaration ⟨⟨0, false, false, false, false⟩,
        Economy.init 100000 1000000, Economy.init 100000 1000000,
        50⟩).2.actor.sharesSum =
      (Economy.init 100000 1000000).sharesSum + 5/100 :=
  (war_declaration_adds_five_percent ⟨⟨0, false, false, false, false⟩,
      Economy.init 100000 1000000, Economy.init 100000 1000000, 50⟩ rfl).1

end SSSS
